import Mathlib

deriving instance DecidableEq for Except

/-!
Shallow embedding of the quiz caching and generation subsystem of the
ai-quiz-generator application, together with proofs about its behaviour.

Sources embedded:
- src/lib/quizCache.js    (generateCacheKey, findCachedQuiz, saveQuizToCache, getCacheStats)
- src/lib/gemini.js       (generateWithRetry, parseQuizResponse, MODEL_FALLBACK_CHAIN)
- src/pages/api/quiz/generate.js (handler validation, extractTextFromPages, truncateText)
- src/models/Quiz.js      (incrementUsage)

Modelling conventions:
- JavaScript numbers that the code uses as nonnegative integers (page numbers,
  counts, timestamps) are embedded as Nat; the single floating-point value
  (the cache hit rate) is embedded as an exact rational.
- JavaScript strings are Lean Strings; character positions use the character
  list of the string, which agrees with the JavaScript length for the inputs
  the claims concern.
- Fallible or external steps (the Mongo store, the Gemini API) are passed in
  explicitly: the store is a list of quiz records or an error, the generation
  client is a function-valued oracle.
- Duck-typed JSON fields are embedded as Option values: none models a missing
  or non-string field, and JavaScript truthiness of a string is nonemptiness.
-/

set_option autoImplicit false

namespace QuizGen

/-- A page range as stored on a quiz; the source field named end is called
stop here because end is a Lean keyword. -/
structure PageRange where
  start : Nat
  stop : Nat
  deriving Repr, DecidableEq

/-- A parsed quiz question as produced by the Gemini response parser in
src/lib/gemini.js. Fields are Option-valued: none models a field that is
missing or not a string (respectively not an array) in the parsed JSON. -/
structure QuizQuestion where
  question : Option String
  options : Option (List String)
  correctAnswer : Option String
  explanation : Option String
  deriving Repr, DecidableEq

/-- A persisted quiz record, after the Quiz schema of src/models/Quiz.js. -/
structure CachedQuiz where
  id : Nat
  bookId : String
  title : String
  generatedDate : Nat
  pageRange : PageRange
  questions : List QuizQuestion
  difficulty : String
  numberOfQuestions : Nat
  cacheKey : String
  usageCount : Nat
  lastUsedAt : Nat
  generatedBy : String
  deriving Repr, DecidableEq

/-- A stored book page, after the pages entry of src/models/Book.js. -/
structure Page where
  pageNumber : Nat
  text : String
  characterCount : Nat
  deriving Repr, DecidableEq

/-- A book record, after src/models/Book.js (the fields the quiz path reads). -/
structure Book where
  title : String
  totalPages : Nat
  pages : List Page
  pdfText : Option String
  deriving Repr, DecidableEq

/-- JavaScript truthiness of a string-valued JSON field: present and nonempty. -/
def truthy : Option String → Bool
  | some s => s != ""
  | none => false

/-- generateCacheKey from src/lib/quizCache.js lines 17-22. The source reads
pageRange?.start || 1 and pageRange?.end || 1: an absent range or a zero
component falls back to 1 (0 is the only falsy Nat). -/
def generateCacheKey (bookId : String) (pageRange : Option PageRange)
    (numberOfQuestions : Nat) (difficulty : String) : String :=
  let start := match pageRange with
    | some pr => if pr.start = 0 then 1 else pr.start
    | none => 1
  let stop := match pageRange with
    | some pr => if pr.stop = 0 then 1 else pr.stop
    | none => 1
  bookId ++ "-" ++ toString start ++ "-" ++ toString stop ++ "-" ++
    toString numberOfQuestions ++ "-" ++ difficulty

/-- The normalized range components the key is built from (the two let
bindings of generateCacheKey). -/
def normalizedRange (pageRange : Option PageRange) : Nat × Nat :=
  (match pageRange with
    | some pr => if pr.start = 0 then 1 else pr.start
    | none => 1,
   match pageRange with
    | some pr => if pr.stop = 0 then 1 else pr.stop
    | none => 1)

/-- incrementUsage from src/models/Quiz.js lines 126-131: adds one to
usageCount, refreshes lastUsedAt, saves, and returns the updated record. -/
def incrementUsage (q : CachedQuiz) (now : Nat) : CachedQuiz :=
  { q with usageCount := q.usageCount + 1, lastUsedAt := now }

/-- findCachedQuiz from src/lib/quizCache.js lines 33-58, over an explicit
store state. The store argument is an error when the persistence layer is
unavailable; the catch block of the source turns any store error into a
cache miss (null). On a hit the record is updated in place via
incrementUsage and the updated record is returned. The result pairs the
returned quiz (or none) with the post-call store. -/
def findCachedQuizSt (store : Except String (List CachedQuiz)) (bookId : String)
    (pageRange : Option PageRange) (numberOfQuestions : Nat) (difficulty : String)
    (now : Nat) : Option CachedQuiz × Except String (List CachedQuiz) :=
  match store with
  | .error e => (none, .error e)
  | .ok quizzes =>
    let cacheKey := generateCacheKey bookId pageRange numberOfQuestions difficulty
    match quizzes.find? (fun q => q.cacheKey == cacheKey) with
    | some q =>
      let q2 := incrementUsage q now
      (some q2, .ok (quizzes.map (fun r => if r.cacheKey == cacheKey then q2 else r)))
    | none => (none, .ok quizzes)

/-- saveQuizToCache from src/lib/quizCache.js lines 65-93: derives the key
from the quiz data, creates the record with usageCount 1, lastUsedAt now and
generatedBy gemini, and persists it. The unique index on cacheKey from
src/models/Quiz.js line 114 makes a duplicate insert fail. -/
def saveQuizToCache (quizzes : List CachedQuiz) (newId : Nat) (bookId : String)
    (title : String) (generatedDate : Nat) (pageRange : PageRange)
    (questions : List QuizQuestion) (difficulty : String)
    (numberOfQuestions : Nat) (now : Nat) :
    Except String (CachedQuiz × List CachedQuiz) :=
  let cacheKey := generateCacheKey bookId (some pageRange) numberOfQuestions difficulty
  let quiz : CachedQuiz :=
    ⟨newId, bookId, title, generatedDate, pageRange, questions, difficulty,
      numberOfQuestions, cacheKey, 1, now, "gemini"⟩
  if quizzes.any (fun q => q.cacheKey == cacheKey) then
    .error "E11000 duplicate key error"
  else
    .ok (quiz, quizzes ++ [quiz])

/-! ### Content budgeting: truncateText (src/pages/api/quiz/generate.js 348-365) -/

/-- Token budget constants from src/pages/api/quiz/generate.js lines 19-21. -/
def MAX_TOKENS : Nat := 15000

def CHARS_PER_TOKEN : Nat := 4

def MAX_CHARS : Nat := MAX_TOKENS * CHARS_PER_TOKEN

/-- Helper for String.prototype.lastIndexOf over a character list: the index
of the last occurrence of c, or -1 when absent. -/
def lastIndexOfAux (c : Char) : List Char → Nat → Int → Int
  | [], _, best => best
  | x :: xs, i, best => lastIndexOfAux c xs (i + 1) (if x = c then (i : Int) else best)

/-- String.prototype.lastIndexOf restricted to a single character. -/
def lastIndexOf (l : List Char) (c : Char) : Int :=
  lastIndexOfAux c l 0 (-1)

/-- truncateText from src/pages/api/quiz/generate.js lines 348-365: return
the text unchanged when it fits, otherwise cut at maxChars and back up to
the last space strictly after position 0 when there is one. -/
def truncateText (text : String) (maxChars : Nat) : String × Bool :=
  if text.length ≤ maxChars then (text, false)
  else
    let truncated := text.data.take maxChars
    let lastSpace := lastIndexOf truncated ' '
    if 0 < lastSpace then (String.mk (truncated.take lastSpace.toNat), true)
    else (String.mk truncated, true)

/-! ### Content selection: extractTextFromPages (src/pages/api/quiz/generate.js 308-340) -/

/-- extractTextFromPages from src/pages/api/quiz/generate.js lines 308-340.
When per-page storage exists: filter to the requested range, sort ascending
by page number, join with a blank line. Otherwise approximate a span of the
legacy pdfText blob by proportional division (the source divides by
totalPages, so this branch presumes a book with totalPages at least 1);
substring is modelled by drop and take on the character list. With no text
at all the source throws, modelled as an error value. -/
def extractTextFromPages (book : Book) (startPage endPage : Nat) : Except String String :=
  if 0 < book.pages.length then
    let selectedPages := book.pages.filter
      (fun p => startPage ≤ p.pageNumber && p.pageNumber ≤ endPage)
    let sorted := selectedPages.mergeSort (fun a b => a.pageNumber ≤ b.pageNumber)
    .ok (String.intercalate "\n\n" (sorted.map Page.text))
  else
    match book.pdfText with
    | some pdfText =>
      let totalChars := pdfText.length
      let charsPerPage := (totalChars + book.totalPages - 1) / book.totalPages
      let startChar := (startPage - 1) * charsPerPage
      let endChar := endPage * charsPerPage
      .ok (String.mk ((pdfText.data.drop startChar).take (endChar - startChar)))
    | none =>
      .error "Failed to extract text from pages: No text content available in book document"

/-- The full-book content path of the handler (src/pages/api/quiz/generate.js
lines 169-178): all page texts joined with a blank line, else the legacy
pdfText blob, else the empty string. -/
def fullBookText (book : Book) : String :=
  if 0 < book.pages.length then
    String.intercalate "\n\n" (book.pages.map Page.text)
  else
    book.pdfText.getD ""

/-! ### Response validation: parseQuizResponse (src/lib/gemini.js 164-208) -/

/-- The per-element loop of parseQuizResponse (src/lib/gemini.js lines
185-200): structural checks on each parsed question, failing with the
message of the first offending element. The index argument carries the
position for the error messages. -/
def validateQuestions : List QuizQuestion → Nat → Except String Unit
  | [], _ => .ok ()
  | q :: rest, i =>
    if !truthy q.question then
      .error ("Question " ++ toString (i + 1) ++ ": missing or invalid question")
    else match q.options with
    | some opts =>
      if opts.length ≠ 4 then
        .error ("Question " ++ toString (i + 1) ++ ": must have exactly 4 options")
      else if !truthy q.correctAnswer then
        .error ("Question " ++ toString (i + 1) ++ ": missing or invalid correctAnswer")
      else if !truthy q.explanation then
        .error ("Question " ++ toString (i + 1) ++ ": missing or invalid explanation")
      else validateQuestions rest (i + 1)
    | none =>
      .error ("Question " ++ toString (i + 1) ++ ": must have exactly 4 options")

/-- parseQuizResponse from src/lib/gemini.js lines 164-208. Code-fence
stripping and JSON.parse are external library steps; their outcome is the
input here: none models text that does not parse to an object with a
questions array, some qs the parsed array. On any structural violation the
catch block rethrows with an Invalid response format prefix. -/
def parseQuizResponse (data : Option (List QuizQuestion)) :
    Except String (List QuizQuestion) :=
  match data with
  | none => .error "Invalid response format: Invalid response structure: missing questions array"
  | some qs =>
    match validateQuestions qs 0 with
    | .ok _ => .ok qs
    | .error e => .error ("Invalid response format: " ++ e)

/-! ### Model fallback and retry: generateWithRetry (src/lib/gemini.js 105-157) -/

/-- The model fallback chain from src/lib/gemini.js lines 12-16. -/
def MODEL_FALLBACK_CHAIN : List String :=
  ["gemini-2.0-flash", "gemini-2.5-pro", "gemini-2.5-flash"]

/-- The inner retry loop of generateWithRetry for one model: the attempt
oracle gen bundles the generateContent call together with parsing and
validation of its response, exactly the scope of the inner try block. The
attempts argument lists the attempt numbers still to run; the result is
either the first success or the last error seen so far, paired with the
number of generation calls performed. -/
def tryAttempts (gen : String → Nat → Except String (List QuizQuestion))
    (modelName : String) (lastError : Option String) :
    List Nat → Except (Option String) (List QuizQuestion) × Nat
  | [] => (.error lastError, 0)
  | a :: rest =>
    match gen modelName a with
    | .ok qs => (.ok qs, 1)
    | .error e =>
      let r := tryAttempts gen modelName (some e) rest
      (r.1, r.2 + 1)

/-- The outer model loop of generateWithRetry: each model gets maxRetries
attempts, and on exhaustion the next model is tried with the error recorded
so far. -/
def tryModels (gen : String → Nat → Except String (List QuizQuestion))
    (maxRetries : Nat) (lastError : Option String) :
    List String → Except (Option String) (List QuizQuestion) × Nat
  | [] => (.error lastError, 0)
  | m :: ms =>
    match tryAttempts gen m lastError (List.range' 1 maxRetries) with
    | (.ok qs, c) => (.ok qs, c)
    | (.error le, c) =>
      let r := tryModels gen maxRetries le ms
      (r.1, c + r.2)

/-- generateWithRetry from src/lib/gemini.js lines 105-157: iterate the
fallback chain, and when everything failed throw an error carrying the
message of the last underlying error. When no attempt ever ran, lastError
is still null and reading lastError.message raises a TypeError, modelled as
a distinct error string. Also returns the total number of generation calls
performed. -/
def generateWithRetry (gen : String → Nat → Except String (List QuizQuestion))
    (maxRetries : Nat) : Except String (List QuizQuestion) × Nat :=
  match tryModels gen maxRetries none MODEL_FALLBACK_CHAIN with
  | (.ok qs, c) => (.ok qs, c)
  | (.error (some e), c) =>
    (.error ("Failed to generate quiz with all models. Last error: " ++ e), c)
  | (.error none, c) =>
    (.error "TypeError: cannot read message of null", c)

/-! ### Cache statistics: getCacheStats (src/lib/quizCache.js 100-159) -/

/-- One entry of the topConfigurations list of getCacheStats. -/
structure TopConfig where
  pageRangeLabel : String
  difficulty : String
  questions : Nat
  usageCount : Nat
  lastUsed : Nat
  deriving Repr, DecidableEq

/-- The aggregate returned by getCacheStats. The hit rate is a percentage;
the JavaScript toFixed(1)/parseFloat pair is embedded as exact rounding of
the rational value to one decimal place. -/
structure CacheStats where
  totalQuizzes : Nat
  uniqueConfigurations : Nat
  cacheHitRate : ℚ
  tokensSaved : Int
  topConfigurations : List TopConfig
  deriving Repr, DecidableEq

/-- Rounding to one decimal place, the embedding of
parseFloat(x.toFixed(1)). -/
def roundTo1 (x : ℚ) : ℚ := (round (x * 10) : ℚ) / 10

/-- getCacheStats from src/lib/quizCache.js lines 100-159, over the list of
quiz records stored for the book (the result of Quiz.find on bookId). The
Set of cache keys is embedded by dedup, the descending usage sort of
topConfigurations by a stable merge sort, matching the stable JavaScript
Array.prototype.sort. -/
def getCacheStats (quizzes : List CachedQuiz) : CacheStats :=
  if quizzes.length = 0 then ⟨0, 0, 0, 0, []⟩
  else
    let totalQuizzes := quizzes.length
    let uniqueConfigurations := (quizzes.map CachedQuiz.cacheKey).dedup.length
    let totalUsage := (quizzes.map CachedQuiz.usageCount).sum
    let cacheHits : Int := (totalUsage : Int) - (uniqueConfigurations : Int)
    let cacheHitRate : ℚ :=
      if 0 < totalUsage then ((cacheHits : ℚ) / (totalUsage : ℚ)) * 100 else 0
    let tokensPerQuiz : Int := 1500
    let tokensSaved := cacheHits * tokensPerQuiz
    let topConfigurations :=
      ((quizzes.mergeSort (fun a b => b.usageCount ≤ a.usageCount)).take 5).map
        (fun q => ⟨toString q.pageRange.start ++ "-" ++ toString q.pageRange.stop,
          q.difficulty, q.numberOfQuestions, q.usageCount, q.lastUsedAt⟩)
    ⟨totalQuizzes, uniqueConfigurations, roundTo1 cacheHitRate, tokensSaved,
      topConfigurations⟩

/-! ### The request boundary and orchestration: handler (src/pages/api/quiz/generate.js 23-299) -/

/-- The raw POST body fields, before validation. Option models an absent
field; numeric fields are Nat (the claims concern nonnegative integers, and
JavaScript truthiness of 0 is modelled exactly). -/
structure RawRange where
  start : Option Nat
  stop : Option Nat
  deriving Repr, DecidableEq

/-- The raw request body of POST /api/quiz/generate. -/
structure RawRequest where
  bookId : Option String
  pageRange : Option RawRange
  numberOfQuestions : Option Nat
  difficulty : Option String
  deriving Repr, DecidableEq

/-- A request that passed boundary validation, with defaults applied. -/
structure ValidRequest where
  bookId : String
  pageRange : Option PageRange
  numQuestions : Nat
  quizDifficulty : String
  deriving Repr, DecidableEq

/-- The validation prefix of the handler, src/pages/api/quiz/generate.js
lines 34-93, run before the database is touched. The expression
numberOfQuestions || 5 defaults an absent or zero value to 5, and
difficulty || medium defaults an absent or empty value; both are embedded
by the explicit falsiness tests. isValidId stands for
mongoose.Types.ObjectId.isValid. -/
def validateRequest (isValidId : String → Bool) (req : RawRequest) :
    Except String ValidRequest :=
  match req.bookId with
  | none => .error "bookId is required"
  | some bid =>
    if bid = "" then .error "bookId is required"
    else if !isValidId bid then .error "Invalid bookId format"
    else
      let numQuestions := match req.numberOfQuestions with
        | some n => if n = 0 then 5 else n
        | none => 5
      if numQuestions < 1 ∨ 20 < numQuestions then
        .error "numberOfQuestions must be between 1 and 20"
      else
        let quizDifficulty := match req.difficulty with
          | some d => if d = "" then "medium" else d
          | none => "medium"
        if !(["easy", "medium", "hard"].contains quizDifficulty) then
          .error "difficulty must be easy, medium, or hard"
        else
          match req.pageRange with
          | none => .ok ⟨bid, none, numQuestions, quizDifficulty⟩
          | some pr =>
            match pr.start, pr.stop with
            | some s, some e =>
              if s = 0 ∨ e = 0 then .error "pageRange must include start and end"
              else if s < 1 ∨ e < 1 then .error "Page numbers must be greater than 0"
              else if e < s then .error "start page must be less than or equal to end page"
              else .ok ⟨bid, some ⟨s, e⟩, numQuestions, quizDifficulty⟩
            | _, _ => .error "pageRange must include start and end"

/-- Observable side effects of one handler run: the cache key probed (none
when validation or the book fetch failed first), whether the generation
client was invoked, and the record persisted by the save step. -/
structure Effects where
  cacheKeyUsed : Option String
  genCalled : Bool
  savedQuiz : Option CachedQuiz
  deriving Repr, DecidableEq

def noEffects : Effects := ⟨none, false, none⟩

/-- The HTTP response, by status class and payload. -/
inductive Response where
  | badRequest (msg : String)
  | notFound (msg : String)
  | serverError (msg : String)
  | okCached (quiz : CachedQuiz)
  | okGenerated (quiz : CachedQuiz) (wasTruncated : Bool)
  deriving Repr, DecidableEq

/-- The empty-content test of the handler (src/pages/api/quiz/generate.js
line 181): !contentText || contentText.trim().length === 0 holds exactly
when every character of the text is whitespace (the empty text included). -/
def isBlank (s : String) : Bool := s.data.all Char.isWhitespace

/-- The generation tail of the handler, src/pages/api/quiz/generate.js lines
180-256: empty-content check, truncation, the generateQuiz call (an oracle
from truncated content, question count and difficulty to a validated
question list or an error), title construction and the save step. -/
def handlerGenerate (book : Book) (nr : ValidRequest) (actualPageRange : PageRange)
    (key : String) (contentText : String)
    (gen : String → Nat → String → Except String (List QuizQuestion))
    (now : Nat) (newId : Nat) (store : Except String (List CachedQuiz)) :
    Response × Effects × Except String (List CachedQuiz) :=
  if isBlank contentText then
    (.badRequest "No text content available for quiz generation",
      ⟨some key, false, none⟩, store)
  else
    match gen (truncateText contentText MAX_CHARS).1 nr.numQuestions nr.quizDifficulty with
    | .error e => (.serverError ("Failed to generate quiz: " ++ e),
        ⟨some key, true, none⟩, store)
    | .ok questions =>
      let quizTitle := match nr.pageRange with
        | some pr => book.title ++ " - Pages " ++ toString pr.start ++ "-" ++ toString pr.stop
        | none => book.title ++ " - Full Book Quiz"
      match store with
      | .error e => (.serverError e, ⟨some key, true, none⟩, .error e)
      | .ok quizzes =>
        match saveQuizToCache quizzes newId nr.bookId quizTitle now actualPageRange
            questions nr.quizDifficulty questions.length now with
        | .error e => (.serverError e, ⟨some key, true, none⟩, .ok quizzes)
        | .ok (quiz, quizzes2) =>
          (.okGenerated quiz (truncateText contentText MAX_CHARS).2,
            ⟨some key, true, some quiz⟩, .ok quizzes2)

/-- The handler of POST /api/quiz/generate, src/pages/api/quiz/generate.js
lines 23-299 (the POST path). External collaborators are explicit: findBook
models Book.findById, store the quiz collection (or its unavailability),
gen the generateQuiz call, now the clock and newId the fresh document id.
Order is that of the source: validate, fetch the book, normalize the absent
page range to the whole book, probe the cache, and only on a miss check the
range bound, select content and generate. -/
def handler (isValidId : String → Bool) (req : RawRequest)
    (findBook : String → Option Book) (store : Except String (List CachedQuiz))
    (gen : String → Nat → String → Except String (List QuizQuestion))
    (now : Nat) (newId : Nat) : Response × Effects × Except String (List CachedQuiz) :=
  match validateRequest isValidId req with
  | .error e => (.badRequest e, noEffects, store)
  | .ok nr =>
    match findBook nr.bookId with
    | none => (.notFound "Book not found", noEffects, store)
    | some book =>
      let actualPageRange := nr.pageRange.getD ⟨1, book.totalPages⟩
      let key := generateCacheKey nr.bookId (some actualPageRange) nr.numQuestions
        nr.quizDifficulty
      let lookup := findCachedQuizSt store nr.bookId (some actualPageRange)
        nr.numQuestions nr.quizDifficulty now
      match lookup.1 with
      | some cq => (.okCached cq, ⟨some key, false, none⟩, lookup.2)
      | none =>
        match nr.pageRange with
        | some pr =>
          if book.totalPages < pr.stop then
            (.badRequest ("Page range exceeds book\x27s total pages (" ++
                toString book.totalPages ++ ")"),
              ⟨some key, false, none⟩, lookup.2)
          else
            match extractTextFromPages book pr.start pr.stop with
            | .error _ => (.badRequest "Failed to extract text from specified pages.",
                ⟨some key, false, none⟩, lookup.2)
            | .ok contentText =>
              handlerGenerate book nr actualPageRange key contentText gen now newId lookup.2
        | none =>
          handlerGenerate book nr actualPageRange key (fullBookText book) gen now newId lookup.2

/-! ### Auxiliary definitions for the statements and witnesses -/

/-- The truncated text does not end in the middle of a word of the original:
either it is the whole original, or the character of the original right
after the cut is a space. -/
def endsAtWordBoundary (original result : String) : Prop :=
  result.length = original.length ∨ original.data[result.length]? = some ' '

/-- The numeric value of a decimal digit character. -/
def digitVal (c : Char) : Nat := c.toNat - Char.toNat '0'

/-- A concrete validated question used by witnesses. -/
def sampleQuestion : QuizQuestion :=
  ⟨some "What is 2 + 2?", some ["A) 3", "B) 4", "C) 5", "D) 6"], some "B",
    some "Basic arithmetic"⟩

/-- A question that passes the structural validation of parseQuizResponse
although its correctAnswer E is not one of the labels A-D. -/
def badAnswerQuestion : QuizQuestion :=
  ⟨some "Pick one", some ["A) 1", "B) 2", "C) 3", "D) 4"], some "E", some "because"⟩

/-- A concrete cached quiz record used by witnesses. -/
def sampleQuiz : CachedQuiz :=
  ⟨7, "book1", "Sample - Pages 1-2", 0, ⟨1, 2⟩, [sampleQuestion], "medium", 1,
    generateCacheKey "book1" (some ⟨1, 2⟩) 1 "medium", 3, 5, "gemini"⟩

/-- A concrete record for the cache statistics counterexample: one stored
quiz that has been used twice (one generation plus one hit). -/
def statsQuiz : CachedQuiz :=
  ⟨1, "book1", "T", 0, ⟨1, 1⟩, [sampleQuestion], "easy", 1, "book1-1-1-1-easy",
    2, 0, "gemini"⟩

/-- A concrete three-page book used by witnesses. -/
def sampleBook : Book :=
  ⟨"Sample", 3, [⟨1, "alpha", 5⟩, ⟨2, "beta", 4⟩, ⟨3, "gamma", 5⟩], none⟩

/-- A book with no pages yet (the Book schema allows totalPages 0). -/
def emptyBook : Book := ⟨"Empty", 0, [], none⟩

/-- A generation oracle on which every model fails every attempt. -/
def genAllFail : String → Nat → Except String (List QuizQuestion) :=
  fun m a => .error (m ++ " attempt " ++ toString a)

/-- The error messages produced by genAllFail. -/
def errAllFail : String → Nat → String :=
  fun m a => m ++ " attempt " ++ toString a

/-- A generation oracle for the orchestrated handler that always succeeds. -/
def stubGen : String → Nat → String → Except String (List QuizQuestion) :=
  fun _ _ _ => .ok [sampleQuestion]

/-! ## Claims -/

/-! ### C5: determinism and normalization of the cache key -/

/-- C5: deriveKey is pure and deterministic; an absent pageRange is
normalized to start 1, end 1; and two requests with identical normalized
fields map to the same key. -/
theorem generateCacheKey_deterministic :
    (∀ bookId pr n d, generateCacheKey bookId pr n d = generateCacheKey bookId pr n d)
    ∧ (∀ bookId n d,
        generateCacheKey bookId none n d = generateCacheKey bookId (some ⟨1, 1⟩) n d)
    ∧ (∀ bookId n d pr1 pr2, normalizedRange pr1 = normalizedRange pr2 →
        generateCacheKey bookId pr1 n d = generateCacheKey bookId pr2 n d) := by
  have hkey : ∀ bookId pr n d, generateCacheKey bookId pr n d =
      bookId ++ "-" ++ toString (normalizedRange pr).1 ++ "-" ++
        toString (normalizedRange pr).2 ++ "-" ++ toString n ++ "-" ++ d := by
    intro bookId pr n d
    cases pr <;> rfl
  refine ⟨fun _ _ _ _ => rfl, fun bookId n d => ?_, fun bookId n d pr1 pr2 h => ?_⟩
  · rfl
  · rw [hkey bookId pr1 n d, hkey bookId pr2 n d, h]

/-- Witness for C5: two syntactically different ranges with the same
normalized components produce the same key. -/
theorem generateCacheKey_deterministic_witness :
    generateCacheKey "book1" (some ⟨0, 5⟩) 5 "easy" =
      generateCacheKey "book1" (some ⟨1, 5⟩) 5 "easy" :=
  generateCacheKey_deterministic.2.2 "book1" 5 "easy" (some ⟨0, 5⟩) (some ⟨1, 5⟩) rfl

/-! ### C1: cache hit returns the stored quiz with usage incremented -/

/-- C1: when the store holds a quiz under the key derived from the request
parameters, the lookup returns exactly that record updated in place: the
same question set, usageCount incremented by exactly 1, and lastUsedAt set
to the current time; no other result is possible on a hit. -/
theorem findCachedQuiz_hit (store : List CachedQuiz) (bookId : String)
    (pr : Option PageRange) (n : Nat) (d : String) (now : Nat) (q : CachedQuiz)
    (hfind : store.find? (fun r => r.cacheKey == generateCacheKey bookId pr n d) = some q) :
    (findCachedQuizSt (.ok store) bookId pr n d now).1 = some (incrementUsage q now)
    ∧ (incrementUsage q now).questions = q.questions
    ∧ (incrementUsage q now).usageCount = q.usageCount + 1
    ∧ (incrementUsage q now).lastUsedAt = now := by
  refine ⟨?_, rfl, rfl, rfl⟩
  simp only [findCachedQuizSt, hfind]

/-- Witness for C1: a concrete one-element store; the lookup returns the
stored quiz with usageCount 4 and the new timestamp. -/
theorem findCachedQuiz_hit_witness :
    (findCachedQuizSt (.ok [sampleQuiz]) "book1" (some ⟨1, 2⟩) 1 "medium" 99).1 =
      some (incrementUsage sampleQuiz 99)
    ∧ (incrementUsage sampleQuiz 99).questions = sampleQuiz.questions
    ∧ (incrementUsage sampleQuiz 99).usageCount = sampleQuiz.usageCount + 1
    ∧ (incrementUsage sampleQuiz 99).lastUsedAt = 99 :=
  findCachedQuiz_hit [sampleQuiz] "book1" (some ⟨1, 2⟩) 1 "medium" 99 sampleQuiz
    (by decide)

/-! ### C8: a failing store degrades the lookup to a miss -/

/-- C8: every store-layer error during lookup yields a miss (null) rather
than propagating, and the handler consequently proceeds down the generation
path: with an unavailable store, a found book and nonempty full-book
content, the generation client is invoked. -/
theorem findCachedQuiz_storeError_degrades :
    (∀ e bookId pr n d now, (findCachedQuizSt (.error e) bookId pr n d now).1 = none)
    ∧ (∀ (isValidId : String → Bool) (req : RawRequest)
        (findBook : String → Option Book) (e : String)
        (gen : String → Nat → String → Except String (List QuizQuestion))
        (now newId : Nat) (nr : ValidRequest) (book : Book),
        validateRequest isValidId req = .ok nr →
        nr.pageRange = none →
        findBook nr.bookId = some book →
        isBlank (fullBookText book) = false →
        (handler isValidId req findBook (.error e) gen now newId).2.1.genCalled = true) := by
  refine ⟨fun _ _ _ _ _ _ => rfl, ?_⟩
  intro isValidId req findBook e gen now newId nr book hval hpr hbook hcontent
  simp only [handler, hval, hbook, hpr, findCachedQuizSt, Option.getD_some,
    Option.getD_none, handlerGenerate, hcontent, Bool.false_eq_true, if_neg,
    ite_false]
  cases h : gen (truncateText (fullBookText book) MAX_CHARS).1 nr.numQuestions
      nr.quizDifficulty <;> simp [h]

/-- Witness for C8: with the store down, a well-formed full-book request on
a concrete book still reaches the generation client. -/
theorem findCachedQuiz_storeError_degrades_witness :
    (handler (fun _ => true) ⟨some "book1", none, some 2, some "easy"⟩
      (fun _ => some sampleBook) (.error "connection lost") stubGen 5 11).2.1.genCalled
      = true :=
  findCachedQuiz_storeError_degrades.2 (fun _ => true)
    ⟨some "book1", none, some 2, some "easy"⟩ (fun _ => some sampleBook)
    "connection lost" stubGen 5 11 ⟨"book1", none, 2, "easy"⟩ sampleBook
    (by decide) rfl rfl (by decide)

/-! ### C3: exhaustion of the fallback chain -/

/-- When every attempt of a model fails, the inner retry loop performs one
generation call per listed attempt and ends carrying the error of the last
attempt. -/
theorem tryAttempts_allFail (gen : String → Nat → Except String (List QuizQuestion))
    (err : String → Nat → String) (H : ∀ m a, gen m a = .error (err m a))
    (m : String) :
    ∀ (n : Nat) (s : Nat) (last : Option String), 1 ≤ n →
      tryAttempts gen m last (List.range' s n) =
        (.error (some (err m (s + n - 1))), n) := by
  intro n
  induction n with
  | zero => intro s last h; omega
  | succ k ih =>
    intro s last _
    rw [List.range'_succ]
    show tryAttempts gen m last (s :: List.range' (s + 1) k) = _
    rcases Nat.eq_zero_or_pos k with hk | hk
    · subst hk
      simp [tryAttempts, H m s]
    · have hrec := ih (s + 1) (some (err m s)) hk
      simp only [tryAttempts, H m s, hrec]
      have harith : s + 1 + k - 1 = s + (k + 1) - 1 := by omega
      rw [harith]

/-- C3: if every model in the fallback chain fails on every attempt, the
generation fails with an error carrying the message of the last underlying
error (the final attempt of the final model), and exactly chain length
times maxRetries generation calls are performed. -/
theorem generateWithRetry_exhaustion
    (gen : String → Nat → Except String (List QuizQuestion))
    (err : String → Nat → String) (H : ∀ m a, gen m a = .error (err m a))
    (r : Nat) (hr : 1 ≤ r) :
    generateWithRetry gen r =
      (.error ("Failed to generate quiz with all models. Last error: " ++
          err "gemini-2.5-flash" r),
        MODEL_FALLBACK_CHAIN.length * r) := by
  have h1 := tryAttempts_allFail gen err H "gemini-2.0-flash" r 1 none hr
  have h2 := tryAttempts_allFail gen err H "gemini-2.5-pro" r 1
    (some (err "gemini-2.0-flash" (1 + r - 1))) hr
  have h3 := tryAttempts_allFail gen err H "gemini-2.5-flash" r 1
    (some (err "gemini-2.5-pro" (1 + r - 1))) hr
  have harith : 1 + r - 1 = r := by omega
  rw [harith] at h1 h2 h3
  simp only [generateWithRetry, MODEL_FALLBACK_CHAIN, tryModels, h1, h2, h3,
    List.length_cons, List.length_nil]
  refine Prod.ext rfl ?_
  show r + (r + (r + 0)) = (0 + 1 + 1 + 1) * r
  ring

/-- Witness for C3: a concrete always-failing oracle with three attempts per
model performs nine calls and reports the last error of the last model. -/
theorem generateWithRetry_exhaustion_witness :
    generateWithRetry genAllFail 3 =
      (.error ("Failed to generate quiz with all models. Last error: " ++
          errAllFail "gemini-2.5-flash" 3),
        MODEL_FALLBACK_CHAIN.length * 3) :=
  generateWithRetry_exhaustion genAllFail errAllFail (fun _ _ => rfl) 3 (by decide)

/-! ### C2: truncation -/

/-- The length of a string built from a character list. -/
theorem length_mk (l : List Char) : (String.mk l).length = l.length := rfl

/-- The last-index accumulator either keeps its running best or reports a
position, offset by the start index, at which the character occurs. -/
theorem lastIndexOfAux_cases (c : Char) :
    ∀ (l : List Char) (i0 : Nat) (best : Int),
      lastIndexOfAux c l i0 best = best ∨
      ∃ j : Nat, j < l.length ∧ lastIndexOfAux c l i0 best = ((i0 + j : Nat) : Int)
        ∧ l[j]? = some c := by
  intro l
  induction l with
  | nil => intro i0 best; left; rfl
  | cons x xs ih =>
    intro i0 best
    simp only [lastIndexOfAux]
    rcases ih (i0 + 1) (if x = c then (i0 : Int) else best) with h | ⟨j, hj, hres, hget⟩
    · by_cases hx : x = c
      · right
        refine ⟨0, by simp, ?_, by simp [hx]⟩
        rw [h, if_pos hx]
        simp
      · left
        rw [h, if_neg hx]
    · right
      refine ⟨j + 1, by simpa using Nat.succ_lt_succ hj, ?_, by simpa using hget⟩
      rw [hres]
      congr 1
      omega

/-- Every position at which the character occurs bounds the last-index
accumulator from below. -/
theorem lastIndexOfAux_ge (c : Char) :
    ∀ (l : List Char) (i0 : Nat) (best : Int) (j : Nat),
      l[j]? = some c → ((i0 + j : Nat) : Int) ≤ lastIndexOfAux c l i0 best := by
  intro l
  induction l with
  | nil => intro i0 best j h; simp at h
  | cons x xs ih =>
    intro i0 best j hget
    simp only [lastIndexOfAux]
    cases j with
    | zero =>
      have hx : x = c := by simpa using hget
      rw [if_pos hx]
      rcases lastIndexOfAux_cases c xs (i0 + 1) (i0 : Int) with h | ⟨j2, _, hres, _⟩
      · rw [h]; push_cast; omega
      · rw [hres]; push_cast; omega
    | succ j2 =>
      have h := ih (i0 + 1) (if x = c then (i0 : Int) else best) j2 (by simpa using hget)
      have harith : ((i0 + (j2 + 1) : Nat) : Int) = (((i0 + 1) + j2 : Nat) : Int) := by
        push_cast; ring
      rw [harith]
      exact h

/-- Counterexample to C2 as stated: on the text made of a space followed by
abcd, with budget 3, truncation occurs and a space exists within the first 3
characters (at position 0), yet the returned text cuts the word abcd in the
middle: the source only backs up to a space at a strictly positive index. -/
theorem truncateText_midword_counterexample :
    (truncateText " abcd" 3).2 = true
    ∧ (∃ i : Nat, i < 3 ∧ (" abcd" : String).data[i]? = some ' ')
    ∧ ¬ endsAtWordBoundary " abcd" (truncateText " abcd" 3).1 := by
  refine ⟨by decide, ⟨0, by decide, by decide⟩, ?_⟩
  intro h
  rcases h with h | h
  · exact absurd h (by decide)
  · exact absurd h (by decide)

/-- C2 amended: the result never exceeds maxChars and wasTruncated holds
exactly when the text is longer than maxChars; and whenever truncation
occurs and a space exists at a strictly positive position below maxChars
(rather than anywhere within the first maxChars characters, which the
counterexample refutes), the returned text ends at a word boundary. -/
theorem truncateText_spec (text : String) (maxChars : Nat) :
    (truncateText text maxChars).1.length ≤ maxChars
    ∧ ((truncateText text maxChars).2 = true ↔ maxChars < text.length)
    ∧ (∀ i : Nat, 0 < i → i < maxChars → text.data[i]? = some ' ' →
        maxChars < text.length →
        endsAtWordBoundary text (truncateText text maxChars).1) := by
  have hdatalen : text.data.length = text.length := rfl
  by_cases hfit : text.length ≤ maxChars
  · refine ⟨?_, ?_, ?_⟩
    · simp only [truncateText, if_pos hfit]
      exact hfit
    · simp only [truncateText, if_pos hfit]
      simp
      omega
    · intro i _ _ _ hlong
      exact absurd hlong (Nat.not_lt.mpr hfit)
  · have hlong : maxChars < text.length := by omega
    have htrlen : (text.data.take maxChars).length = maxChars := by
      rw [List.length_take, hdatalen]
      omega
    refine ⟨?_, ?_, ?_⟩
    · simp only [truncateText, if_neg hfit]
      split <;> (simp only [length_mk, List.length_take]; omega)
    · simp only [truncateText, if_neg hfit]
      split <;> simp [hlong]
    · intro i hi himax hsp _
      have hget : (text.data.take maxChars)[i]? = some ' ' := by
        rw [List.getElem?_take_of_lt himax]
        exact hsp
      have hge := lastIndexOfAux_ge ' ' (text.data.take maxChars) 0 (-1) i hget
      rcases lastIndexOfAux_cases ' ' (text.data.take maxChars) 0 (-1) with h | ⟨j, hj, hres, hjget⟩
      · exfalso
        rw [h] at hge
        push_cast at hge
        omega
      · have hij : i ≤ j := by
          rw [hres] at hge
          push_cast at hge
          omega
        have hjpos : 0 < j := by omega
        have hres2 : lastIndexOf (text.data.take maxChars) ' ' = ((j : Nat) : Int) := by
          show lastIndexOfAux ' ' (text.data.take maxChars) 0 (-1) = _
          rw [hres]
          push_cast
          ring
        have hpos : 0 < lastIndexOf (text.data.take maxChars) ' ' := by
          rw [hres2]
          exact_mod_cast hjpos
        have hjmax : j < maxChars := by
          rw [htrlen] at hj
          exact hj
        unfold endsAtWordBoundary
        right
        have hresult : (truncateText text maxChars).1 =
            String.mk ((text.data.take maxChars).take j) := by
          simp only [truncateText, if_neg hfit]
          rw [if_pos hpos, hres2]
          simp
        rw [hresult]
        have hlen : (String.mk ((text.data.take maxChars).take j)).length = j := by
          simp only [length_mk, List.length_take]
          omega
        rw [hlen]
        rw [← List.getElem?_take_of_lt hjmax]
        exact hjget

/-- Witness for C2 amended: a space at position 5 of an 11-character text
with budget 8 makes the cut land on the word boundary. -/
theorem truncateText_spec_witness :
    (truncateText "hello world" 8).1.length ≤ 8
    ∧ ((truncateText "hello world" 8).2 = true ↔ 8 < ("hello world" : String).length)
    ∧ endsAtWordBoundary "hello world" (truncateText "hello world" 8).1 :=
  ⟨(truncateText_spec "hello world" 8).1,
    (truncateText_spec "hello world" 8).2.1,
    (truncateText_spec "hello world" 8).2.2 5 (by decide) (by decide) (by decide)
      (by decide)⟩

/-! ### C4: range extraction and range-bound rejection -/

/-- C4: on a book whose pages are numbered contiguously from 1, content
selection for s to e returns exactly the pages with pageNumber in the range,
in ascending page order, joined with a blank line; and on a cache miss a
requested range whose end exceeds totalPages is rejected before any
generation work (the generation client is never invoked). -/
theorem extractTextFromPages_range_spec :
    (∀ (book : Book) (s e : Nat),
      book.totalPages = book.pages.length →
      (∀ i (h : i < book.pages.length), (book.pages.get ⟨i, h⟩).pageNumber = i + 1) →
      1 ≤ s → s ≤ e → e ≤ book.totalPages →
      extractTextFromPages book s e = .ok (String.intercalate "\n\n"
        ((book.pages.filter (fun p => s ≤ p.pageNumber && p.pageNumber ≤ e)).map Page.text))
      ∧ (book.pages.filter (fun p => s ≤ p.pageNumber && p.pageNumber ≤ e)).Pairwise
          (fun p q => p.pageNumber < q.pageNumber))
    ∧ (∀ (isValidId : String → Bool) (req : RawRequest)
        (findBook : String → Option Book) (store : Except String (List CachedQuiz))
        (gen : String → Nat → String → Except String (List QuizQuestion))
        (now newId : Nat) (nr : ValidRequest) (book : Book) (pr : PageRange),
        validateRequest isValidId req = .ok nr →
        findBook nr.bookId = some book →
        nr.pageRange = some pr →
        book.totalPages < pr.stop →
        (findCachedQuizSt store nr.bookId (some pr) nr.numQuestions
          nr.quizDifficulty now).1 = none →
        (handler isValidId req findBook store gen now newId).1 =
          .badRequest ("Page range exceeds book\x27s total pages (" ++
            toString book.totalPages ++ ")")
        ∧ (handler isValidId req findBook store gen now newId).2.1.genCalled = false) := by
  constructor
  · intro book s e htot hinv hs hse het
    have hlen : 0 < book.pages.length := by omega
    have hPW : book.pages.Pairwise (fun p q => p.pageNumber < q.pageNumber) := by
      rw [List.pairwise_iff_getElem]
      intro i j hi hj hij
      have h1 : (book.pages[i]).pageNumber = i + 1 := hinv i hi
      have h2 : (book.pages[j]).pageNumber = j + 1 := hinv j hj
      omega
    have hPWf : (book.pages.filter
        (fun p => s ≤ p.pageNumber && p.pageNumber ≤ e)).Pairwise
        (fun p q => p.pageNumber < q.pageNumber) :=
      hPW.sublist (List.filter_sublist _)
    have hsorted : (book.pages.filter
          (fun p => s ≤ p.pageNumber && p.pageNumber ≤ e)).mergeSort
          (fun a b => a.pageNumber ≤ b.pageNumber) =
        book.pages.filter (fun p => s ≤ p.pageNumber && p.pageNumber ≤ e) := by
      refine List.mergeSort_of_sorted (hPWf.imp ?_)
      intro a b h
      simpa using Nat.le_of_lt h
    refine ⟨?_, hPWf⟩
    simp only [extractTextFromPages, if_pos hlen]
    rw [hsorted]
  · intro isValidId req findBook store gen now newId nr book pr hval hbook hpr hexceed hmiss
    simp only [handler, hval, hbook, hpr, Option.getD_some, hmiss, if_pos hexceed]
    constructor <;> trivial

/-- Witness for C4: the three-page sample book; pages 2-3 are selected in
order, and a request for pages 1-9999 is rejected without generation. -/
theorem extractTextFromPages_range_spec_witness :
    (extractTextFromPages sampleBook 2 3 = .ok (String.intercalate "\n\n"
      ((sampleBook.pages.filter (fun p => 2 ≤ p.pageNumber && p.pageNumber ≤ 3)).map
        Page.text))
    ∧ (sampleBook.pages.filter (fun p => 2 ≤ p.pageNumber && p.pageNumber ≤ 3)).Pairwise
        (fun p q => p.pageNumber < q.pageNumber))
    ∧ ((handler (fun _ => true) ⟨some "book1", some ⟨some 1, some 9999⟩, some 5, some "medium"⟩
        (fun _ => some sampleBook) (.ok []) stubGen 4 12).1 =
      .badRequest ("Page range exceeds book\x27s total pages (" ++
        toString sampleBook.totalPages ++ ")")
    ∧ (handler (fun _ => true) ⟨some "book1", some ⟨some 1, some 9999⟩, some 5, some "medium"⟩
        (fun _ => some sampleBook) (.ok []) stubGen 4 12).2.1.genCalled = false) :=
  ⟨extractTextFromPages_range_spec.1 sampleBook 2 3 rfl (by decide) (by decide)
      (by decide) (by decide),
    extractTextFromPages_range_spec.2 (fun _ => true)
      ⟨some "book1", some ⟨some 1, some 9999⟩, some 5, some "medium"⟩
      (fun _ => some sampleBook) (.ok []) stubGen 4 12
      ⟨"book1", some ⟨1, 9999⟩, 5, "medium"⟩ sampleBook ⟨1, 9999⟩
      (by decide) rfl rfl (by decide) (by decide)⟩

/-! ### C6: structural validation of parsed questions -/

/-- Truthiness of a string field unpacked. -/
theorem truthy_iff (o : Option String) :
    truthy o = true ↔ ∃ s, o = some s ∧ s ≠ "" := by
  cases o <;> simp [truthy]

/-- What passing the per-question validation loop guarantees for every
element of the list. -/
theorem validateQuestions_ok :
    ∀ (l : List QuizQuestion) (i : Nat), validateQuestions l i = .ok () →
      ∀ q ∈ l, truthy q.question = true
        ∧ (∃ opts, q.options = some opts ∧ opts.length = 4)
        ∧ truthy q.correctAnswer = true
        ∧ truthy q.explanation = true := by
  intro l
  induction l with
  | nil => intro i _ q hq; simp at hq
  | cons x xs ih =>
    intro i h q hq
    simp only [validateQuestions] at h
    split at h
    · exact absurd h (by simp)
    · rename_i hnq
      split at h
      · rename_i opts heq
        split at h
        · exact absurd h (by simp)
        · rename_i hlen
          split at h
          · exact absurd h (by simp)
          · rename_i hnca
            split at h
            · exact absurd h (by simp)
            · rename_i hnex
              cases hq with
              | head => exact ⟨by simpa using hnq, ⟨opts, heq, not_not.mp hlen⟩,
                  by simpa using hnca, by simpa using hnex⟩
              | tail _ hq => exact ih (i + 1) h q hq
      · exact absurd h (by simp)

/-- Counterexample to C6 as stated: a question whose correctAnswer is the
letter E passes parseQuizResponse unchanged, although E is none of the
labels A, B, C, D: the parser checks presence of correctAnswer, not that it
is an option label. -/
theorem parseQuizResponse_label_unchecked :
    parseQuizResponse (some [badAnswerQuestion]) = .ok [badAnswerQuestion]
    ∧ badAnswerQuestion.correctAnswer = some "E"
    ∧ "E" ∉ (["A", "B", "C", "D"] : List String) := by
  refine ⟨by decide, by decide, by decide⟩

/-- C6 amended: every question in a successfully parsed response has a
present nonempty question string, exactly 4 options, a present nonempty
correctAnswer string and a present nonempty explanation; membership of
correctAnswer among the labels A-D is not part of the validation. -/
theorem parseQuizResponse_shape (data : Option (List QuizQuestion))
    (qs : List QuizQuestion) (h : parseQuizResponse data = .ok qs) :
    ∀ q ∈ qs, (∃ s, q.question = some s ∧ s ≠ "")
      ∧ (∃ opts, q.options = some opts ∧ opts.length = 4)
      ∧ (∃ c, q.correctAnswer = some c ∧ c ≠ "")
      ∧ (∃ ex, q.explanation = some ex ∧ ex ≠ "") := by
  intro q hq
  cases data with
  | none => simp [parseQuizResponse] at h
  | some l =>
    simp only [parseQuizResponse] at h
    cases hv : validateQuestions l 0 with
    | error e => rw [hv] at h; simp at h
    | ok u =>
      cases u
      rw [hv] at h
      simp only [Except.ok.injEq] at h
      subst h
      have := validateQuestions_ok l 0 hv q hq
      exact ⟨(truthy_iff _).mp this.1, this.2.1,
        (truthy_iff _).mp this.2.2.1, (truthy_iff _).mp this.2.2.2⟩

/-- Witness for C6 amended: the sample question parses and satisfies the
shape guarantees. -/
theorem parseQuizResponse_shape_witness :
    (∃ s, sampleQuestion.question = some s ∧ s ≠ "")
    ∧ (∃ opts, sampleQuestion.options = some opts ∧ opts.length = 4)
    ∧ (∃ c, sampleQuestion.correctAnswer = some c ∧ c ≠ "")
    ∧ (∃ ex, sampleQuestion.explanation = some ex ∧ ex ≠ "") :=
  parseQuizResponse_shape (some [sampleQuestion]) [sampleQuestion] (by decide)
    sampleQuestion (by decide)

/-! ### C7: boundary validation -/

/-- Inversion: a request that passes validation with a present nonzero
numberOfQuestions had that value within 1..20. -/
theorem validateRequest_ok_numQ (isValidId : String → Bool) (req : RawRequest)
    (v : ValidRequest) (h : validateRequest isValidId req = .ok v)
    (n : Nat) (hn : req.numberOfQuestions = some n) (hnz : n ≠ 0) :
    1 ≤ n ∧ n ≤ 20 := by
  cases hbid : req.bookId with
  | none => rw [validateRequest, hbid] at h; exact absurd h (by simp)
  | some bid =>
    simp only [validateRequest, hbid, hn] at h
    rw [if_neg hnz] at h
    split at h
    · exact absurd h (by simp)
    · split at h
      · exact absurd h (by simp)
      · split at h
        · exact absurd h (by simp)
        · rename_i hcond
          constructor <;> omega

/-- Inversion: a request that passes validation with a present nonempty
difficulty had a difficulty in the allowed list. -/
theorem validateRequest_ok_difficulty (isValidId : String → Bool) (req : RawRequest)
    (v : ValidRequest) (h : validateRequest isValidId req = .ok v)
    (d : String) (hd : req.difficulty = some d) (hdne : d ≠ "") :
    (["easy", "medium", "hard"] : List String).contains d = true := by
  cases hbid : req.bookId with
  | none => rw [validateRequest, hbid] at h; exact absurd h (by simp)
  | some bid =>
    simp only [validateRequest, hbid, hd] at h
    rw [if_neg hdne] at h
    split at h
    · exact absurd h (by simp)
    · split at h
      · exact absurd h (by simp)
      · split at h
        · exact absurd h (by simp)
        · split at h
          · exact absurd h (by simp)
          · rename_i hcond
            cases hb : (["easy", "medium", "hard"] : List String).contains d with
            | false => rw [hb] at hcond; exact absurd rfl hcond
            | true => rfl

/-- Inversion: a request that passes validation with a present page range
with present components had start at most end. -/
theorem validateRequest_ok_range (isValidId : String → Bool) (req : RawRequest)
    (v : ValidRequest) (h : validateRequest isValidId req = .ok v)
    (pr : RawRange) (s e : Nat) (hpr : req.pageRange = some pr)
    (hs : pr.start = some s) (he : pr.stop = some e) :
    s ≤ e := by
  cases hbid : req.bookId with
  | none => rw [validateRequest, hbid] at h; exact absurd h (by simp)
  | some bid =>
    simp only [validateRequest, hbid, hpr, hs, he] at h
    split at h
    · exact absurd h (by simp)
    · split at h
      · exact absurd h (by simp)
      · split at h
        · exact absurd h (by simp)
        · split at h
          · exact absurd h (by simp)
          · split at h
            · exact absurd h (by simp)
            · split at h
              · exact absurd h (by simp)
              · split at h
                · exact absurd h (by simp)
                · rename_i hcond
                  omega

/-- Counterexample to C7 as stated: a request carrying numberOfQuestions 0,
a value outside 1-20, is not rejected: the JavaScript default expression
numberOfQuestions || 5 treats 0 as absent, so validation succeeds with 5
questions. -/
theorem validateRequest_zero_counterexample :
    validateRequest (fun _ => true)
        ⟨some "book1", none, some 0, some "medium"⟩ =
      .ok ⟨"book1", none, 5, "medium"⟩
    ∧ ¬(1 ≤ 0 ∧ 0 ≤ 20) := ⟨by decide, by decide⟩

/-- C7 amended: the boundary rejects, before any core work, every request
whose numberOfQuestions is present, nonzero and outside 1-20 (zero and
absent values silently default to 5), whose difficulty is present, nonempty
and not in the allowed set (empty and absent default to medium), or whose
pageRange is present with both components present and start above end; on
any validation error the handler returns the 400 response with no cache
probe, no generation call and no write. -/
theorem validateRequest_boundary :
    (∀ (isValidId : String → Bool) (req : RawRequest) (n : Nat),
      req.numberOfQuestions = some n → n ≠ 0 → ¬(1 ≤ n ∧ n ≤ 20) →
      ∃ msg, validateRequest isValidId req = .error msg)
    ∧ (∀ (isValidId : String → Bool) (req : RawRequest) (d : String),
      req.difficulty = some d → d ≠ "" →
      (["easy", "medium", "hard"] : List String).contains d = false →
      ∃ msg, validateRequest isValidId req = .error msg)
    ∧ (∀ (isValidId : String → Bool) (req : RawRequest) (pr : RawRange) (s e : Nat),
      req.pageRange = some pr → pr.start = some s → pr.stop = some e → e < s →
      ∃ msg, validateRequest isValidId req = .error msg)
    ∧ (∀ (isValidId : String → Bool) (req : RawRequest)
        (findBook : String → Option Book) (store : Except String (List CachedQuiz))
        (gen : String → Nat → String → Except String (List QuizQuestion))
        (now newId : Nat) (msg : String),
      validateRequest isValidId req = .error msg →
      handler isValidId req findBook store gen now newId =
        (.badRequest msg, noEffects, store)) := by
  refine ⟨?_, ?_, ?_, ?_⟩
  · intro isValidId req n hn hnz hout
    cases hres : validateRequest isValidId req with
    | error e => exact ⟨e, rfl⟩
    | ok v => exact absurd (validateRequest_ok_numQ isValidId req v hres n hn hnz) hout
  · intro isValidId req d hd hdne hnotin
    cases hres : validateRequest isValidId req with
    | error e => exact ⟨e, rfl⟩
    | ok v =>
      have := validateRequest_ok_difficulty isValidId req v hres d hd hdne
      rw [hnotin] at this
      exact absurd this (by simp)
  · intro isValidId req pr s e hpr hs he hlt
    cases hres : validateRequest isValidId req with
    | error e2 => exact ⟨e2, rfl⟩
    | ok v =>
      have := validateRequest_ok_range isValidId req v hres pr s e hpr hs he
      omega
  · intro isValidId req findBook store gen now newId msg h
    simp [handler, h]

/-- Witness for C7 amended: the request with pageRange start 10, end 5 is
rejected, and the handler on that request returns the 400 response with no
effects. -/
theorem validateRequest_boundary_witness :
    (∃ msg, validateRequest (fun _ => true)
      ⟨some "book1", some ⟨some 10, some 5⟩, some 5, some "medium"⟩ = .error msg)
    ∧ handler (fun _ => true)
        ⟨some "book1", some ⟨some 10, some 5⟩, some 5, some "medium"⟩
        (fun _ => some sampleBook) (.ok []) stubGen 3 21 =
      (.badRequest "start page must be less than or equal to end page", noEffects,
        .ok []) :=
  ⟨validateRequest_boundary.2.2.1 (fun _ => true)
      ⟨some "book1", some ⟨some 10, some 5⟩, some 5, some "medium"⟩
      ⟨some 10, some 5⟩ 10 5 rfl rfl rfl (by decide),
    validateRequest_boundary.2.2.2 (fun _ => true)
      ⟨some "book1", some ⟨some 10, some 5⟩, some 5, some "medium"⟩
      (fun _ => some sampleBook) (.ok []) stubGen 3 21
      "start page must be less than or equal to end page" (by decide)⟩

/-! ### C9: cache statistics -/

/-- Counterexample to C9 as stated: for one stored quiz used twice, the
claimed hit rate (sum minus distinct) divided by sum is one half, but
getCacheStats reports 50: the source multiplies by 100 (a percentage) and
rounds to one decimal place. -/
theorem getCacheStats_rate_counterexample :
    (getCacheStats [statsQuiz]).cacheHitRate = 50
    ∧ (((2 : ℚ) - 1) / 2 = 1 / 2)
    ∧ (50 : ℚ) ≠ 1 / 2 := by
  refine ⟨?_, by norm_num, by norm_num⟩
  have h1 : (getCacheStats [statsQuiz]).cacheHitRate = roundTo1 50 := by
    simp only [getCacheStats]
    norm_num [statsQuiz]
  rw [h1, roundTo1]
  norm_num

/-- C9 amended: stats returns the zeroed aggregate when no quizzes exist;
otherwise it reports the total quiz count, the distinct cache-key count,
tokensSaved proportional to the hit count, and a hit rate equal to
100 times (sum of usageCount minus distinct key count) over the sum of
usageCount, rounded to one decimal place (0 when the usage sum is 0). -/
theorem getCacheStats_spec :
    getCacheStats [] = ⟨0, 0, 0, 0, []⟩
    ∧ (∀ quizzes : List CachedQuiz, quizzes ≠ [] →
        (getCacheStats quizzes).totalQuizzes = quizzes.length
        ∧ (getCacheStats quizzes).uniqueConfigurations =
            (quizzes.map CachedQuiz.cacheKey).dedup.length
        ∧ (0 < (quizzes.map CachedQuiz.usageCount).sum →
            (getCacheStats quizzes).cacheHitRate =
              roundTo1 (100 * (((quizzes.map CachedQuiz.usageCount).sum : ℚ) -
                  ((quizzes.map CachedQuiz.cacheKey).dedup.length : ℚ)) /
                ((quizzes.map CachedQuiz.usageCount).sum : ℚ)))
        ∧ ((quizzes.map CachedQuiz.usageCount).sum = 0 →
            (getCacheStats quizzes).cacheHitRate = 0)
        ∧ (getCacheStats quizzes).tokensSaved =
            (((quizzes.map CachedQuiz.usageCount).sum : Int) -
              ((quizzes.map CachedQuiz.cacheKey).dedup.length : Int)) * 1500) := by
  constructor
  · rfl
  · intro quizzes hne
    have hlen : ¬(quizzes.length = 0) := by simpa using hne
    unfold getCacheStats
    rw [if_neg hlen]
    refine ⟨rfl, rfl, ?_, ?_, rfl⟩
    · intro hpos
      show roundTo1 (if 0 < (quizzes.map CachedQuiz.usageCount).sum then _ else 0) = _
      rw [if_pos hpos]
      congr 1
      rw [Int.cast_sub, Int.cast_natCast, Int.cast_natCast]
      ring
    · intro hzero
      show roundTo1 (if 0 < (quizzes.map CachedQuiz.usageCount).sum then _ else 0) = 0
      rw [if_neg (by omega)]
      simp [roundTo1]

/-- Witness for C9 amended: the one-quiz store used twice yields one quiz,
one distinct key, rate 50 and 1500 tokens saved. -/
theorem getCacheStats_spec_witness :
    (getCacheStats [statsQuiz]).totalQuizzes = [statsQuiz].length
    ∧ (getCacheStats [statsQuiz]).uniqueConfigurations =
        ([statsQuiz].map CachedQuiz.cacheKey).dedup.length
    ∧ (getCacheStats [statsQuiz]).cacheHitRate =
        roundTo1 (100 * ((([statsQuiz].map CachedQuiz.usageCount).sum : ℚ) -
            (([statsQuiz].map CachedQuiz.cacheKey).dedup.length : ℚ)) /
          (([statsQuiz].map CachedQuiz.usageCount).sum : ℚ))
    ∧ (getCacheStats [statsQuiz]).tokensSaved =
        ((([statsQuiz].map CachedQuiz.usageCount).sum : Int) -
          (([statsQuiz].map CachedQuiz.cacheKey).dedup.length : Int)) * 1500 :=
  have h := getCacheStats_spec.2 [statsQuiz] (by simp)
  ⟨h.1, h.2.1, h.2.2.1 (by decide), h.2.2.2.2⟩

/-! ### C10: whole-book requests and the normalized key -/

/-- The value of a decimal digit character produced by Nat.digitChar. -/
theorem digitVal_digitChar (m : Nat) (h : m < 10) :
    digitVal (Nat.digitChar m) = m := by
  interval_cases m <;> rfl

/-- Folding the decimal value over the digits produced by the core digit
routine recovers the number (and continues over the tail). -/
theorem toDigitsCore_val : ∀ (f n : Nat) (ds : List Char), n < f →
    (Nat.toDigitsCore 10 f n ds).foldl (fun a c => a * 10 + digitVal c) 0 =
      ds.foldl (fun a c => a * 10 + digitVal c) n := by
  intro f
  induction f with
  | zero => intro n ds h; omega
  | succ k ih =>
    intro n ds h
    simp only [Nat.toDigitsCore]
    by_cases h10 : n / 10 = 0
    · rw [if_pos h10]
      simp only [List.foldl_cons]
      rw [digitVal_digitChar (n % 10) (Nat.mod_lt _ (by norm_num))]
      have h2 : 0 * 10 + n % 10 = n := by omega
      rw [h2]
    · rw [if_neg h10]
      have hlt : n / 10 < k := by omega
      rw [ih (n / 10) (Nat.digitChar (n % 10) :: ds) hlt]
      simp only [List.foldl_cons]
      have h2 : n / 10 * 10 + digitVal (Nat.digitChar (n % 10)) = n := by
        rw [digitVal_digitChar (n % 10) (Nat.mod_lt _ (by norm_num))]
        omega
      rw [h2]

/-- The decimal value of the digit string of n is n. -/
theorem repr_val (n : Nat) :
    (Nat.toDigits 10 n).foldl (fun a c => a * 10 + digitVal c) 0 = n := by
  have h := toDigitsCore_val (n + 1) n [] (Nat.lt_succ_self n)
  simpa using h

/-- The decimal representation of a natural number determines it. -/
theorem natRepr_injective : Function.Injective Nat.repr := by
  intro m n h
  have hdata : Nat.toDigits 10 m = Nat.toDigits 10 n := congrArg String.data h
  have hm := repr_val m
  rw [hdata, repr_val n] at hm
  exact hm.symm

/-- Cache keys sharing bookId, start, question count and difficulty but
with different nonzero stop components are different strings. -/
theorem generateCacheKey_stop_injective (bookId : String) (s t1 t2 n : Nat)
    (d : String) (h1 : t1 ≠ 0) (h2 : t2 ≠ 0) (hne : t1 ≠ t2) :
    generateCacheKey bookId (some ⟨s, t1⟩) n d ≠
      generateCacheKey bookId (some ⟨s, t2⟩) n d := by
  intro h
  have hd := congrArg String.data h
  simp only [generateCacheKey, if_neg h1, if_neg h2, String.data_append,
    List.append_assoc] at hd
  have hd1 := List.append_cancel_left hd
  have hd2 := List.append_cancel_left hd1
  have hd3 := List.append_cancel_left hd2
  have hd4 := List.append_cancel_left hd3
  have hd5 := List.append_cancel_right hd4
  have hstr : toString t1 = toString t2 := String.ext hd5
  exact absurd (natRepr_injective hstr) hne

/-- Counterexample to C10 as stated: on a book with totalPages 0 (allowed by
the Book schema, minimum 0), the whole-book request normalizes to the range
1 to 0, whose key falls back to end 1 via the || 1 fallback: the effective
key coincides with the key of a pages-1-to-1 request although totalPages is
not 1. The handler on such a book probes exactly the pages-1-to-1 key. -/
theorem handler_wholeBook_key_counterexample :
    generateCacheKey "book1" (some ⟨1, emptyBook.totalPages⟩) 5 "medium" =
      generateCacheKey "book1" (some ⟨1, 1⟩) 5 "medium"
    ∧ emptyBook.totalPages ≠ 1
    ∧ (handler (fun _ => true) ⟨some "book1", none, some 5, some "medium"⟩
        (fun _ => some emptyBook) (.ok []) stubGen 0 1).2.1.cacheKeyUsed =
      some (generateCacheKey "book1" (some ⟨1, 1⟩) 5 "medium") := by
  refine ⟨by decide, by decide, by decide⟩

/-- The effects of the generation tail: the recorded probe key is the one
passed in, and any persisted quiz carries the actual page range and a key
derived from that range (with the persisted question count). -/
theorem handlerGenerate_effects (book : Book) (nr : ValidRequest)
    (apr : PageRange) (key : String) (contentText : String)
    (gen : String → Nat → String → Except String (List QuizQuestion))
    (now newId : Nat) (store : Except String (List CachedQuiz)) :
    (handlerGenerate book nr apr key contentText gen now newId store).2.1.cacheKeyUsed
      = some key
    ∧ (∀ q, (handlerGenerate book nr apr key contentText gen now newId
        store).2.1.savedQuiz = some q →
      q.pageRange = apr
      ∧ q.cacheKey = generateCacheKey nr.bookId (some apr) q.numberOfQuestions
          nr.quizDifficulty) := by
  unfold handlerGenerate
  split
  · exact ⟨rfl, fun q h => by simp at h⟩
  · cases hnr : nr.pageRange with
    | some pr =>
      simp only [hnr]
      split
      · exact ⟨rfl, fun q h => by simp at h⟩
      · split
        · exact ⟨rfl, fun q h => by simp at h⟩
        · split
          · exact ⟨rfl, fun q h => by simp at h⟩
          · rename_i heq
            refine ⟨rfl, fun q h => ?_⟩
            simp only [Option.some.injEq] at h
            subst h
            simp only [saveQuizToCache] at heq
            split at heq
            · exact absurd heq (by simp)
            · simp only [Except.ok.injEq, Prod.mk.injEq] at heq
              obtain ⟨hq1, _⟩ := heq
              subst hq1
              exact ⟨rfl, rfl⟩
    | none =>
      simp only [hnr]
      split
      · exact ⟨rfl, fun q h => by simp at h⟩
      · split
        · exact ⟨rfl, fun q h => by simp at h⟩
        · split
          · exact ⟨rfl, fun q h => by simp at h⟩
          · rename_i heq
            refine ⟨rfl, fun q h => ?_⟩
            simp only [Option.some.injEq] at h
            subst h
            simp only [saveQuizToCache] at heq
            split at heq
            · exact absurd heq (by simp)
            · simp only [Except.ok.injEq, Prod.mk.injEq] at heq
              obtain ⟨hq1, _⟩ := heq
              subst hq1
              exact ⟨rfl, rfl⟩

/-- C10 amended: for a request with an absent pageRange, the handler
substitutes the range 1 to book.totalPages before the cache probe and the
persistence: the probed key is derived from (bookId, 1, totalPages,
numberOfQuestions, difficulty) and any persisted quiz carries that range
and a key derived from it; the probed key differs from the key of a
pages-1-to-1 request whenever totalPages is at least 2 (for totalPages 0
the || 1 fallback makes the keys coincide, refuting the claimed bound
totalPages different from 1). -/
theorem handler_wholeBook_key (isValidId : String → Bool) (req : RawRequest)
    (findBook : String → Option Book) (store : Except String (List CachedQuiz))
    (gen : String → Nat → String → Except String (List QuizQuestion))
    (now newId : Nat) (nr : ValidRequest) (book : Book)
    (hval : validateRequest isValidId req = .ok nr)
    (hpr : nr.pageRange = none)
    (hbook : findBook nr.bookId = some book) :
    ((handler isValidId req findBook store gen now newId).2.1.cacheKeyUsed =
      some (generateCacheKey nr.bookId (some ⟨1, book.totalPages⟩) nr.numQuestions
        nr.quizDifficulty))
    ∧ (∀ q, (handler isValidId req findBook store gen now newId).2.1.savedQuiz =
        some q →
      q.pageRange = ⟨1, book.totalPages⟩
      ∧ q.cacheKey = generateCacheKey nr.bookId (some ⟨1, book.totalPages⟩)
          q.numberOfQuestions nr.quizDifficulty)
    ∧ (2 ≤ book.totalPages →
      generateCacheKey nr.bookId (some ⟨1, book.totalPages⟩) nr.numQuestions
          nr.quizDifficulty ≠
        generateCacheKey nr.bookId (some ⟨1, 1⟩) nr.numQuestions nr.quizDifficulty) := by
  have hkey := handlerGenerate_effects book nr ⟨1, book.totalPages⟩
    (generateCacheKey nr.bookId (some ⟨1, book.totalPages⟩) nr.numQuestions
      nr.quizDifficulty)
    (fullBookText book) gen now newId
    (findCachedQuizSt store nr.bookId (some ⟨1, book.totalPages⟩) nr.numQuestions
      nr.quizDifficulty now).2
  refine ⟨?_, ?_, ?_⟩
  · simp only [handler, hval, hbook, hpr, Option.getD_none]
    split
    · rfl
    · exact hkey.1
  · intro q hq
    simp only [handler, hval, hbook, hpr, Option.getD_none] at hq
    split at hq
    · simp at hq
    · exact hkey.2 q hq
  · intro htot
    exact generateCacheKey_stop_injective nr.bookId 1 book.totalPages 1
      nr.numQuestions nr.quizDifficulty (by omega) (by omega) (by omega)

/-- Witness for C10 amended: on the three-page sample book, a whole-book
request probes the key of pages 1-3, and that key differs from the key of a
pages-1-to-1 request. -/
theorem handler_wholeBook_key_witness :
    ((handler (fun _ => true) ⟨some "book1", none, some 2, some "easy"⟩
        (fun _ => some sampleBook) (.ok []) stubGen 5 11).2.1.cacheKeyUsed =
      some (generateCacheKey "book1" (some ⟨1, sampleBook.totalPages⟩) 2 "easy"))
    ∧ generateCacheKey "book1" (some ⟨1, sampleBook.totalPages⟩) 2 "easy" ≠
        generateCacheKey "book1" (some ⟨1, 1⟩) 2 "easy" :=
  have h := handler_wholeBook_key (fun _ => true)
    ⟨some "book1", none, some 2, some "easy"⟩ (fun _ => some sampleBook) (.ok [])
    stubGen 5 11 ⟨"book1", none, 2, "easy"⟩ sampleBook (by decide) rfl rfl
  ⟨h.1, h.2.2 (by decide)⟩

end QuizGen
